import Mathlib

/-!
Verification of the coroutine core of the CppFeature repository.

This file is a shallow embedding of the two components the specification
calls the core:

* the `Result<T>` / `TaskPromise<T>` / `TaskAwaiter<T>` / `Task<T>` machinery
  of `src/coroutine/ZExample3.cpp` (result slot, completion calls, callback
  subscription, and the composition wrappers `Then` / `Finally`), and
* the lock-free `async_manual_reset_event` of `src/coroutine/ZCoroutine.h` /
  `src/coroutine/ZCoroutine.cpp` (atomic state cell, waiter stack,
  `await_suspend` CAS loop, `set`, `is_set`).

Machine-level aspects that do not translate to a shallow embedding (the mutex
and condition variable themselves, raw pointers, thread identity) are erased;
everything that determines the observable data flow — which result is stored,
which callbacks are queued, which callbacks or waiters are invoked, in which
order, and which exceptions escape — is modelled explicitly.  Exceptions are
modelled as values: a C++ computation that may throw becomes a function into
`Except Exc`, and a `catch (std::exception&)` clause catches exactly the
exceptions whose dynamic type derives from `std::exception` (`Exc.isStd`).
-/

set_option autoImplicit false

namespace CppFeature

/-- A captured C++ exception (the payload of a non-null `std::exception_ptr`):
`isStd` records whether the thrown object's dynamic type derives from
`std::exception` (only those are caught by a `catch (std::exception&)`
clause), `msg` stands for the identity/contents of the thrown object. -/
structure Exc where
  isStd : Bool
  msg : String
  deriving DecidableEq, Repr

/-- Embedding of `Result<T>` (ZExample3.cpp lines 46-71): a value slot
`m_tValue` (default-initialized by `T m_tValue{}`) together with an optional
captured exception `m_pException` (`nullptr` encoded as `none`). -/
structure ResultCpp (T : Type) where
  value : T
  exc : Option Exc
  deriving DecidableEq, Repr

namespace ResultCpp

variable {T : Type}

/-- The default constructor `Result()` (line 51): value slot
default-initialized, exception pointer null. -/
def mkDefault (T : Type) [Inhabited T] : ResultCpp T := ⟨default, none⟩

/-- The value constructor `Result(T&& value)` (line 54): stores the value,
exception pointer stays null. -/
def mkValue (v : T) : ResultCpp T := ⟨v, none⟩

/-- The exception constructor `Result(std::exception_ptr&& e)` (line 56):
value slot stays default-initialized, stores the captured exception. -/
def mkExc [Inhabited T] (e : Exc) : ResultCpp T := ⟨default, some e⟩

/-- Embedding of `Result<T>::GetOrThrow` (lines 59-66): if `m_pException` is
non-null, rethrow it; otherwise return `m_tValue`. -/
def getOrThrow (r : ResultCpp T) : Except Exc T :=
  match r.exc with
  | some e => Except.error e
  | none => Except.ok r.value

end ResultCpp

/-- Embedding of a C++ `try { body } catch (std::exception& e) { handler }`
block around a `Unit`-valued computation: an exception whose dynamic type
derives from `std::exception` is caught and given to the handler, any other
exception propagates. -/
def tryCatchStd (body : Except Exc Unit) (handler : Exc → Except Exc Unit) :
    Except Exc Unit :=
  match body with
  | Except.ok u => Except.ok u
  | Except.error e => if e.isStd then handler e else Except.error e

/-- The wrapper that `Task<T>::Then` (ZExample3.cpp lines 220-233) subscribes
via `OnCompleted`: `try { func(result.GetOrThrow()); } catch (std::exception&
e) { }` — note that `GetOrThrow` is evaluated inside the `try`, and that the
catch clause swallows the exception (empty handler body). -/
def thenWrapper {T : Type} (f : T → Except Exc Unit) (r : ResultCpp T) :
    Except Exc Unit :=
  tryCatchStd (r.getOrThrow.bind f) (fun _ => Except.ok ())

/-- The wrapper that `Task<T>::Finally` (lines 250-256) subscribes via
`OnCompleted`: `[func](auto result) { func(); }` — it ignores the result and
has no try/catch. -/
def finallyWrapper {T : Type} (f : Unit → Except Exc Unit) (_r : ResultCpp T) :
    Except Exc Unit :=
  f ()

/-- Embedding of the data of `TaskPromise<T>` (ZExample3.cpp lines 74-165):
the optional result slot `m_tResult` and the ordered callback list
`m_listCompletionCallbacks`.  The mutex and the condition variable guard and
signal this data but carry no data themselves, so they are erased; callbacks
are an arbitrary type `C` so that invocation can be logged (log entries pair
the callback with the `Result` copy it was invoked with). -/
structure TaskSt (T : Type) (C : Type) where
  result : Option (ResultCpp T)
  callbacks : List C
  deriving DecidableEq, Repr

namespace TaskSt

variable {T C : Type}

/-- Embedding of `TaskPromise<T>::return_value` (ZExample3.cpp lines 93-100):
under the lock it stores `Result<T>(std::move(value))` into `m_tResult`
(unconditionally — there is no check that the slot is still empty) and calls
`m_conCompletion.notify_all()`.  It invokes no completion callback and never
calls `NotifyCallbacks`, so the invocation log of the call is empty and the
callback list is untouched. -/
def returnValue (v : T) (st : TaskSt T C) :
    TaskSt T C × List (C × ResultCpp T) :=
  ({ st with result := some (ResultCpp.mkValue v) }, [])

/-- Embedding of `TaskPromise<T>::unhandled_exception` (lines 85-92): under
the lock it stores `Result<T>(std::current_exception())` into `m_tResult`
(again unconditionally) and calls `notify_all()`; like `return_value` it
invokes no callback and never calls `NotifyCallbacks`. -/
def unhandledException [Inhabited T] (e : Exc) (st : TaskSt T C) :
    TaskSt T C × List (C × ResultCpp T) :=
  ({ st with result := some (ResultCpp.mkExc e) }, [])

/-- Embedding of `TaskPromise<T>::OnCompleted` (lines 123-138), parametrized
by the semantics `run` of a callback.  If `m_tResult` already has a value, a
copy of it is taken, the lock is released and the callback is invoked
immediately on the calling thread (so an exception it raises propagates to
the caller of `OnCompleted`); otherwise the callback is appended with
`push_back` to the end of the pending list.  The returned log records the
immediate invocations the call performed. -/
def onCompleted (run : C → ResultCpp T → Except Exc Unit) (c : C)
    (st : TaskSt T C) : Except Exc (TaskSt T C × List (C × ResultCpp T)) :=
  match st.result with
  | some r =>
      match run c r with
      | Except.ok _ => Except.ok (st, [(c, r)])
      | Except.error e => Except.error e
  | none => Except.ok ({ st with callbacks := st.callbacks ++ [c] }, [])

/-- Helper for `notifyCallbacks`: run the callbacks in list order on the
result copy `r`; an exception thrown by a callback propagates immediately and
aborts the remainder of the walk.  On success the log lists every callback
paired with `r`, in list order. -/
def runAll (run : C → ResultCpp T → Except Exc Unit) (r : ResultCpp T) :
    List C → Except Exc (List (C × ResultCpp T))
  | [] => Except.ok []
  | c :: cs =>
      match run c r with
      | Except.error e => Except.error e
      | Except.ok _ => (runAll run r cs).map (fun log => (c, r) :: log)

/-- Embedding of the private `TaskPromise<T>::NotifyCallbacks` (lines
145-154): take a copy of `m_tResult.value()` (which throws
`std::bad_optional_access` if the slot is empty), invoke every queued
callback in order with it, then clear the list.  NOTE: this member function
has no call site anywhere in the source — neither `return_value` nor
`unhandled_exception` nor anything else ever invokes it. -/
def notifyCallbacks (run : C → ResultCpp T → Except Exc Unit)
    (st : TaskSt T C) : Except Exc (TaskSt T C × List (C × ResultCpp T)) :=
  match st.result with
  | none => Except.error ⟨true, "bad_optional_access"⟩
  | some r =>
      (runAll run r st.callbacks).map (fun log => ({ st with callbacks := [] }, log))

end TaskSt

/-- Semantics of a callback that is itself a function from results to
possibly-throwing computations: invoke it. -/
def runFn {T : Type} (c : ResultCpp T → Except Exc Unit) (r : ResultCpp T) :
    Except Exc Unit :=
  c r

/-- Embedding of the attachment step of `Task<T>::Then` (lines 220-233): it
calls `OnCompleted` with `thenWrapper f` (and then returns `*this`, which is
modelled by the call returning normally). -/
def thenAttach {T : Type} (f : T → Except Exc Unit)
    (st : TaskSt T (ResultCpp T → Except Exc Unit)) :
    Except Exc (TaskSt T (ResultCpp T → Except Exc Unit) ×
      List ((ResultCpp T → Except Exc Unit) × ResultCpp T)) :=
  TaskSt.onCompleted runFn (thenWrapper f) st

/-- Embedding of the attachment step of `Task<T>::Finally` (lines 250-256):
it calls `OnCompleted` with `finallyWrapper f`. -/
def finallyAttach {T : Type} (f : Unit → Except Exc Unit)
    (st : TaskSt T (ResultCpp T → Except Exc Unit)) :
    Except Exc (TaskSt T (ResultCpp T → Except Exc Unit) ×
      List ((ResultCpp T → Except Exc Unit) × ResultCpp T)) :=
  TaskSt.onCompleted runFn (finallyWrapper f) st

/-- Embedding of `TaskAwaiter<T>::await_ready` (ZExample3.cpp lines 182-186):
`return false;` — it never consults the awaited task's state. -/
def taskAwaiterAwaitReady {T C : Type} (_st : TaskSt T C) : Bool :=
  false

/-- Embedding of `TaskAwaiter<T>::await_suspend` (lines 188-194): it calls
`m_Task.Finally([handle]() { handle.resume(); })`, i.e. attaches via
`OnCompleted` a finally-wrapper whose body is the resume action. -/
def taskAwaiterAwaitSuspend {T : Type} (resume : Unit → Except Exc Unit)
    (st : TaskSt T (ResultCpp T → Except Exc Unit)) :
    Except Exc (TaskSt T (ResultCpp T → Except Exc Unit) ×
      List ((ResultCpp T → Except Exc Unit) × ResultCpp T)) :=
  finallyAttach resume st

/-- Embedding of the atomic cell `m_state` of `async_manual_reset_event`
(ZCoroutine.h line 64): it holds either the event's own address — the set
sentinel (`setSentinel`) — or the head of the intrusive waiter stack
(`waiting stack`), where `waiting []` is the null pointer (unset, no
waiters), the head of `stack` is the most recently linked awaiter, and the
tail of the list is the `m_next` chain.  Waiters are identified by `Nat`
tokens (their coroutine handles). -/
inductive EvState where
  | setSentinel : EvState
  | waiting : List Nat → EvState
  deriving DecidableEq, Repr

/-- Embedding of `async_manual_reset_event::is_set` (ZCoroutine.cpp lines
44-47): the load compares the cell against the event's own address. -/
def is_set (s : EvState) : Bool :=
  match s with
  | EvState.setSentinel => true
  | EvState.waiting _ => false

/-- Embedding of `async_manual_reset_event::set` (ZCoroutine.cpp lines
55-71): exchange the cell for the set sentinel, capturing the old value; if
the old value was already the sentinel do nothing, otherwise walk the
captured waiter stack from its head, resuming each waiter's coroutine and
moving to `m_next`.  Returns the new cell value together with the list of
waiters resumed, in resumption order. -/
def setEvent (s : EvState) : EvState × List Nat :=
  match s with
  | EvState.setSentinel => (EvState.setSentinel, [])
  | EvState.waiting stack => (EvState.setSentinel, stack)

/-- Embedding of `async_manual_reset_event::awaiter::await_suspend`
(ZCoroutine.cpp lines 9-38) in a sequential (interference-free) run: if the
cell reads as the set sentinel, return false without touching the cell;
otherwise the CAS succeeds on the first attempt, setting `m_next` of the new
node `w` to the observed old value and making `w` the new head. -/
def awaitSuspendSeq (w : Nat) (s : EvState) : Bool × EvState :=
  match s with
  | EvState.setSentinel => (false, EvState.setSentinel)
  | EvState.waiting stack => (true, EvState.waiting (w :: stack))

/-- Embedding of the full compare-and-swap retry loop of
`async_manual_reset_event::awaiter::await_suspend` (ZCoroutine.cpp lines
9-38) against an adversarial interference schedule: `old` is the value held
in `oldValue` (initially the acquire load of `m_state`), and `sched` lists
the actual content of the cell at each successive `compare_exchange_weak`
attempt.  Each iteration first checks `oldValue` against the sentinel and
returns false (performing no write); otherwise it sets `m_next := oldValue`
and attempts the CAS: success writes the node (with the freshly observed
stack as its tail) and returns true, failure reloads `oldValue` with the
actual value and retries.  The second component of the outcome is the value
written to the cell, `none` when the call wrote nothing; the result is
`none` when the schedule runs out before the loop exits. -/
def awaitSuspendLoop (w : Nat) : EvState → List EvState →
    Option (Bool × Option EvState)
  | EvState.setSentinel, _ => some (false, none)
  | EvState.waiting _, [] => none
  | EvState.waiting stack, actual :: rest =>
      if actual = EvState.waiting stack then
        some (true, some (EvState.waiting (w :: stack)))
      else
        awaitSuspendLoop w actual rest

/-- Registering the waiters `ws`, in list order, one after another, each via
the (successful) `await_suspend` path. -/
def registerAll (ws : List Nat) (s : EvState) : EvState :=
  ws.foldl (fun acc w => (awaitSuspendSeq w acc).2) s

end CppFeature

namespace CppFeature

/-- Registering waiters one by one from the empty unset state builds the
reversed registration list as the waiter stack (newest at the head). -/
theorem registerAll_waiting (ws acc : List Nat) :
    registerAll ws (EvState.waiting acc) = EvState.waiting (ws.reverse ++ acc) := by
  induction ws generalizing acc with
  | nil => rfl
  | cons w ws ih =>
      show registerAll ws (EvState.waiting (w :: acc))
        = EvState.waiting ((w :: ws).reverse ++ acc)
      rw [ih]
      simp

/-- C3: after registering the waiters ws in order on an initially unset
event, set() exchanges the state for the set sentinel and resumes exactly the
registered waiters, in the reverse of registration order (LIFO over the
captured stack); in particular every registered waiter is resumed exactly as
often as it was registered. -/
theorem c3_set_wakes_all_in_reverse_registration_order (ws : List Nat)
    (_hne : ws ≠ []) :
    registerAll ws (EvState.waiting []) = EvState.waiting ws.reverse ∧
    setEvent (EvState.waiting ws.reverse) = (EvState.setSentinel, ws.reverse) ∧
    (∀ w : Nat,
      (setEvent (EvState.waiting ws.reverse)).2.count w = ws.count w) := by
  refine ⟨?_, rfl, ?_⟩
  · simpa using registerAll_waiting ws []
  · intro w
    simp [setEvent, List.count_reverse]

/-- Witness for C3 at the concrete registrations R1, R2, R3 = 1, 2, 3: set()
resumes 3, 2, 1. -/
theorem c3_witness :
    ([1, 2, 3] : List Nat) ≠ [] ∧
    (registerAll [1, 2, 3] (EvState.waiting []) = EvState.waiting [3, 2, 1] ∧
     setEvent (EvState.waiting [3, 2, 1]) = (EvState.setSentinel, [3, 2, 1]) ∧
     (∀ w : Nat,
       (setEvent (EvState.waiting [3, 2, 1])).2.count w
         = ([1, 2, 3] : List Nat).count w)) :=
  ⟨by decide, c3_set_wakes_all_in_reverse_registration_order [1, 2, 3] (by decide)⟩

/-- C4: the await_suspend CAS loop, run against any interference schedule,
returns false only without having written to the state cell (and it always
returns false when the initially observed value is the set sentinel), and
whenever it returns true it has pushed the node onto the head of the waiter
stack with its next pointer set to a freshly observed head (the observed
value is the initial load or one of the values reloaded on CAS failure). -/
theorem c4_register_waiter_cas_loop (w : Nat) (old : EvState)
    (sched : List EvState) (b : Bool) (wr : Option EvState)
    (h : awaitSuspendLoop w old sched = some (b, wr)) :
    (old = EvState.setSentinel → b = false ∧ wr = none) ∧
    (b = false → wr = none) ∧
    (b = true → ∃ stack : List Nat,
      wr = some (EvState.waiting (w :: stack)) ∧
      (old = EvState.waiting stack ∨ EvState.waiting stack ∈ sched)) := by
  induction sched generalizing old with
  | nil =>
      cases old with
      | setSentinel =>
          simp only [awaitSuspendLoop, Option.some.injEq, Prod.mk.injEq] at h
          obtain ⟨hb, hwr⟩ := h
          subst hb
          subst hwr
          exact ⟨fun _ => ⟨rfl, rfl⟩, fun _ => rfl, fun hb => Bool.noConfusion hb⟩
      | waiting stack =>
          exact Option.noConfusion h
  | cons actual rest ih =>
      cases old with
      | setSentinel =>
          simp only [awaitSuspendLoop, Option.some.injEq, Prod.mk.injEq] at h
          obtain ⟨hb, hwr⟩ := h
          subst hb
          subst hwr
          exact ⟨fun _ => ⟨rfl, rfl⟩, fun _ => rfl, fun hb => Bool.noConfusion hb⟩
      | waiting stack =>
          simp only [awaitSuspendLoop] at h
          by_cases hc : actual = EvState.waiting stack
          · rw [if_pos hc] at h
            simp only [Option.some.injEq, Prod.mk.injEq] at h
            obtain ⟨hb, hwr⟩ := h
            subst hb
            subst hwr
            exact ⟨fun hso => EvState.noConfusion hso,
                   fun hbf => Bool.noConfusion hbf,
                   fun _ => ⟨stack, rfl, Or.inl rfl⟩⟩
          · rw [if_neg hc] at h
            obtain ⟨-, i2, i3⟩ := ih actual h
            refine ⟨fun hso => EvState.noConfusion hso, i2, fun hb => ?_⟩
            obtain ⟨st2, hwr2, hmem⟩ := i3 hb
            refine ⟨st2, hwr2, Or.inr ?_⟩
            cases hmem with
            | inl heq =>
                subst heq
                exact List.mem_cons_self _ _
            | inr hm => exact List.mem_cons_of_mem _ hm

/-- Witness for C4 at a concrete instance: the cell holds the empty waiter
stack and the CAS succeeds at the first attempt, linking node 5. -/
theorem c4_witness :
    awaitSuspendLoop 5 (EvState.waiting []) [EvState.waiting []]
      = some (true, some (EvState.waiting [5])) ∧
    ((EvState.waiting [] = EvState.setSentinel →
        true = false ∧ some (EvState.waiting [5]) = (none : Option EvState)) ∧
     (true = false → some (EvState.waiting [5]) = (none : Option EvState)) ∧
     (true = true → ∃ stack : List Nat,
        some (EvState.waiting [5]) = some (EvState.waiting (5 :: stack)) ∧
        (EvState.waiting [] = EvState.waiting stack ∨
          EvState.waiting stack ∈ [EvState.waiting []]))) :=
  ⟨rfl,
    c4_register_waiter_cas_loop 5 (EvState.waiting []) [EvState.waiting []]
      true (some (EvState.waiting [5])) rfl⟩

/-- C5: set() is idempotent — on a state already holding the set sentinel it
is a no-op resuming nobody; after a first set() of an event carrying the
waiters registered as ws, is_set reads true, a second set() leaves the
sentinel in place and resumes nobody, and over both calls each registered
waiter is resumed exactly once in total. -/
theorem c5_set_idempotent (ws : List Nat) :
    setEvent EvState.setSentinel = (EvState.setSentinel, []) ∧
    (setEvent (registerAll ws (EvState.waiting []))).1 = EvState.setSentinel ∧
    is_set (setEvent (registerAll ws (EvState.waiting []))).1 = true ∧
    setEvent (setEvent (registerAll ws (EvState.waiting []))).1
      = (EvState.setSentinel, []) ∧
    is_set (setEvent (setEvent (registerAll ws (EvState.waiting []))).1).1
      = true ∧
    (∀ w : Nat,
      ((setEvent (registerAll ws (EvState.waiting []))).2 ++
        (setEvent (setEvent (registerAll ws (EvState.waiting []))).1).2).count w
        = ws.count w) := by
  have hreg : registerAll ws (EvState.waiting [])
      = EvState.waiting ws.reverse := by
    simpa using registerAll_waiting ws []
  rw [hreg]
  refine ⟨rfl, rfl, rfl, rfl, rfl, ?_⟩
  intro w
  simp [setEvent, List.count_reverse]

/-- C7: GetOrThrow on a Result constructed from a value v returns v
unchanged, and on a Result constructed from a captured exception e re-raises
exactly that exception, preserving its identity. -/
theorem c7_result_round_trip (T : Type) [Inhabited T] (v : T) (e : Exc) :
    (ResultCpp.mkValue v).getOrThrow = Except.ok v ∧
    (ResultCpp.mkExc (T := T) e).getOrThrow = Except.error e :=
  ⟨rfl, rfl⟩

/-- C10: GetOrThrow raises exactly on a Result holding a captured exception;
a default-constructed Result raises nothing and returns the value-initialized
default, and is in fact structurally identical to a success Result carrying
the default value. -/
theorem c10_default_result_like_default_success (T : Type) [Inhabited T] :
    (ResultCpp.mkDefault T).getOrThrow = Except.ok (default : T) ∧
    ResultCpp.mkDefault T = ResultCpp.mkValue (default : T) ∧
    (∀ e : Exc, (ResultCpp.mkExc (T := T) e).getOrThrow = Except.error e) ∧
    (∀ v : T, (ResultCpp.mkValue v).getOrThrow = Except.ok v) :=
  ⟨rfl, rfl, fun _ => rfl, fun _ => rfl⟩

/-- C1 (code bug): a completion call performs no callback invocation at all —
`return_value` and `unhandled_exception` only store the result (and signal the
condition variable); since `NotifyCallbacks` has no call site, the queued
continuation list is neither invoked nor cleared by completing, contradicting
the claim whenever a callback was queued before completion. -/
theorem c1_completion_invokes_no_queued_callback (T C : Type) [Inhabited T]
    (v : T) (e : Exc) (st : TaskSt T C) :
    (TaskSt.returnValue v st).2 = [] ∧
    (TaskSt.returnValue v st).1.callbacks = st.callbacks ∧
    (TaskSt.unhandledException e st).2 = [] ∧
    (TaskSt.unhandledException e st).1.callbacks = st.callbacks :=
  ⟨rfl, rfl, rfl, rfl⟩

/-- C2 counterexample: completing a task that already holds the stored result
`Result(1)` with `return_value(2)` silently replaces the stored result by
`Result(2)` — nothing is rejected or flagged, refuting the claimed
at-most-once transition of the result slot. -/
theorem c2_counterexample_second_completion_overwrites :
    (TaskSt.returnValue (C := Nat) 2
        (TaskSt.mk (some (ResultCpp.mkValue 1)) [])).1.result
      = some (ResultCpp.mkValue 2) ∧
    some (ResultCpp.mkValue 2) ≠ some (ResultCpp.mkValue (1 : Nat)) :=
  ⟨rfl, by decide⟩

/-- C2 amended: both completion calls store their Result unconditionally —
in every task state, including one already holding a result, the slot
afterwards holds exactly the newly stored Result, so a second completion
attempt silently overwrites the first (exactly-once completion is a caller
contract, not checked by the code). -/
theorem c2_amended_completion_stores_unconditionally (T : Type) [Inhabited T]
    (C : Type) (v : T) (e : Exc) (st : TaskSt T C) :
    (TaskSt.returnValue v st).1.result = some (ResultCpp.mkValue v) ∧
    (TaskSt.unhandledException e st).1.result = some (ResultCpp.mkExc e) :=
  ⟨rfl, rfl⟩

/-- C6 counterexample: when the captured error's dynamic type does not derive
from std::exception (for example a thrown plain object), the wrapper
installed by Then lets it escape: the wrapper evaluates to that error rather
than returning normally, refuting the claim that no error escapes the
wrapper. -/
theorem c6_counterexample_nonstd_error_escapes_then :
    (Exc.mk false "thrown plain object").isStd = false ∧
    thenWrapper (T := Nat) (fun _ => Except.ok ())
        (ResultCpp.mkExc (Exc.mk false "thrown plain object"))
      = Except.error (Exc.mk false "thrown plain object") :=
  ⟨rfl, rfl⟩

/-- C6 amended: on a success result the wrapper installed by Then invokes
`f(value)` (its outcome is exactly `try { f value } catch (std::exception&)
{ }`); on an error result `f` is never invoked (the wrapper's outcome is
independent of `f`), an error deriving from std::exception is silently
swallowed, and an error not deriving from std::exception escapes the
wrapper. -/
theorem c6_amended_then_wrapper_behaviour (T : Type) [Inhabited T]
    (f g : T → Except Exc Unit) (v : T) (e : Exc) :
    thenWrapper f (ResultCpp.mkValue v)
      = tryCatchStd (f v) (fun _ => Except.ok ()) ∧
    thenWrapper f (ResultCpp.mkExc e) = thenWrapper g (ResultCpp.mkExc e) ∧
    (e.isStd = true → thenWrapper f (ResultCpp.mkExc e) = Except.ok ()) ∧
    (e.isStd = false → thenWrapper f (ResultCpp.mkExc e) = Except.error e) := by
  refine ⟨rfl, rfl, ?_, ?_⟩ <;> intro h <;>
    simp [thenWrapper, tryCatchStd, ResultCpp.mkExc, ResultCpp.getOrThrow,
      Except.bind, h]

/-- Witness for the amended C6 at a concrete instance: a std::exception-
derived error is swallowed by the Then wrapper. -/
theorem c6_amended_witness :
    (Exc.mk true "boom").isStd = true ∧
    thenWrapper (T := Nat) (fun _ => Except.ok ())
        (ResultCpp.mkExc (Exc.mk true "boom"))
      = Except.ok () :=
  ⟨rfl,
    (c6_amended_then_wrapper_behaviour Nat (fun _ => Except.ok ())
      (fun _ => Except.ok ()) 0 (Exc.mk true "boom")).2.2.1 rfl⟩

/-- C8: if a success handler f given to Then throws an exception deriving
from std::exception when invoked with the completed value, the wrapper
catches and silently discards it — the wrapper returns normally — and the
attachment step of Then on the already-completed task also returns normally
(it runs the wrapper synchronously and reports no error). -/
theorem c8_then_swallows_std_exception_from_handler (T : Type) [Inhabited T]
    (f : T → Except Exc Unit) (v : T) (e : Exc)
    (st : TaskSt T (ResultCpp T → Except Exc Unit))
    (he : e.isStd = true) (hf : f v = Except.error e)
    (hst : st.result = some (ResultCpp.mkValue v)) :
    thenWrapper f (ResultCpp.mkValue v) = Except.ok () ∧
    thenAttach f st
      = Except.ok (st, [(thenWrapper f, ResultCpp.mkValue v)]) := by
  have hw : thenWrapper f (ResultCpp.mkValue v) = Except.ok () := by
    show tryCatchStd (f v) (fun _ => Except.ok ()) = Except.ok ()
    rw [hf]
    simp [tryCatchStd, he]
  refine ⟨hw, ?_⟩
  simp [thenAttach, TaskSt.onCompleted, hst, runFn, hw]

/-- Witness for C8 at a concrete instance: handler that always throws a
std::exception-derived error, task already completed with value 0. -/
theorem c8_witness :
    (Exc.mk true "boom").isStd = true ∧
    (fun _ : Nat => (Except.error (Exc.mk true "boom") : Except Exc Unit)) 0
      = Except.error (Exc.mk true "boom") ∧
    (TaskSt.mk (some (ResultCpp.mkValue 0))
        ([] : List (ResultCpp Nat → Except Exc Unit))).result
      = some (ResultCpp.mkValue 0) ∧
    (thenWrapper
        (fun _ : Nat => (Except.error (Exc.mk true "boom") : Except Exc Unit))
        (ResultCpp.mkValue 0) = Except.ok () ∧
     thenAttach
        (fun _ : Nat => (Except.error (Exc.mk true "boom") : Except Exc Unit))
        (TaskSt.mk (some (ResultCpp.mkValue 0)) [])
      = Except.ok (TaskSt.mk (some (ResultCpp.mkValue 0)) [],
          [(thenWrapper (fun _ : Nat =>
              (Except.error (Exc.mk true "boom") : Except Exc Unit)),
            ResultCpp.mkValue 0)])) :=
  ⟨rfl, rfl, rfl,
    c8_then_swallows_std_exception_from_handler Nat
      (fun _ : Nat => (Except.error (Exc.mk true "boom") : Except Exc Unit))
      0 (Exc.mk true "boom")
      (TaskSt.mk (some (ResultCpp.mkValue 0)) []) rfl rfl rfl⟩

/-- C9: await_ready of a TaskAwaiter returns false unconditionally (even on
an already-completed task), and on an already-completed task the resume
action registered by await_suspend through Finally runs synchronously during
the await_suspend call itself, via OnCompleted's already-completed fast path
(the invocation log of the call records the wrapper running with the stored
result). -/
theorem c9_await_always_suspends_then_fast_path (T : Type)
    (st : TaskSt T (ResultCpp T → Except Exc Unit)) (r : ResultCpp T)
    (k : Unit → Except Exc Unit)
    (hr : st.result = some r) (hk : k () = Except.ok ()) :
    taskAwaiterAwaitReady st = false ∧
    taskAwaiterAwaitSuspend k st = Except.ok (st, [(finallyWrapper k, r)]) := by
  refine ⟨rfl, ?_⟩
  simp [taskAwaiterAwaitSuspend, finallyAttach, TaskSt.onCompleted, hr,
    runFn, finallyWrapper, hk]

/-- Witness for C9 at a concrete instance: task already completed with value
3, resume action that succeeds. -/
theorem c9_witness :
    (TaskSt.mk (some (ResultCpp.mkValue 3))
        ([] : List (ResultCpp Nat → Except Exc Unit))).result
      = some (ResultCpp.mkValue 3) ∧
    (fun _ : Unit => (Except.ok () : Except Exc Unit)) () = Except.ok () ∧
    (taskAwaiterAwaitReady (TaskSt.mk (some (ResultCpp.mkValue 3))
        ([] : List (ResultCpp Nat → Except Exc Unit))) = false ∧
     taskAwaiterAwaitSuspend
        (fun _ : Unit => (Except.ok () : Except Exc Unit))
        (TaskSt.mk (some (ResultCpp.mkValue 3)) [])
      = Except.ok (TaskSt.mk (some (ResultCpp.mkValue 3)) [],
          [(finallyWrapper (fun _ : Unit => (Except.ok () : Except Exc Unit)),
            ResultCpp.mkValue 3)])) :=
  ⟨rfl, rfl,
    c9_await_always_suspends_then_fast_path Nat
      (TaskSt.mk (some (ResultCpp.mkValue 3)) []) (ResultCpp.mkValue 3)
      (fun _ : Unit => (Except.ok () : Except Exc Unit)) rfl rfl⟩

end CppFeature
